import Mathlib

/-!
Verification development for the agent_vector_memory ingestion/retrieval core.

The Python source is shallowly embedded: strings are lists of characters
(`Str`), machine integers are `Nat`/`Int` with explicit `% 2 ^ 32` where
overflow matters, HTTP effects are recorded as explicit call traces, and
fallible code returns `Except`.  Floating point payload values are abstracted
to `Int` since no claim depends on float arithmetic.
-/

set_option maxRecDepth 4096

/-- Strings are modelled as lists of characters. -/
abbrev Str := List Char

/-- Helper to turn a Lean string literal into the model string type. -/
def str (s : String) : Str := s.toList

/-! ## Python exception model

`src/domain/errors.py` defines `ContractError(ValueError)`,
`EmbeddingError(RuntimeError)` and `VectorStoreError(RuntimeError)`.
The adapters can additionally raise `requests` HTTP errors
(`raise_for_status`).  Each constructor records exactly which Python class
was instantiated at the raise site; Python subclass relations are irrelevant
to the raise sites themselves. -/
inductive PyError where
  | valueError (msg : Str)
  | contractError (msg : Str)
  | embeddingError (msg : Str)
  | vectorStoreError (msg : Str)
  | httpError (status : Nat)
deriving DecidableEq

/-- True exactly when the result is a raised `ContractError` instance
(the Python check `type(e) is ContractError` / a raise of that class). -/
def raisesContractError {α : Type} : Except PyError α → Bool
  | .error (.contractError _) => true
  | _ => false

/-- True exactly when the result is a raised `ValueError` instance. -/
def raisesValueError {α : Type} : Except PyError α → Bool
  | .error (.valueError _) => true
  | _ => false

/-! ## 32-bit arithmetic and SHA-1 (for `uuid.uuid5`)

`_make_uuid` in `src/application/use_cases/upsert_memory.py` calls
`uuid.uuid5(uuid.NAMESPACE_URL, name)`, which is SHA-1 over the namespace
bytes followed by the UTF-8 encoded name, truncated to 16 bytes with
version/variant bits forced. -/

/-- Reduce modulo `2 ^ 32`. -/
def mod32 (x : Nat) : Nat := x % 4294967296

/-- Rotate a 32-bit word left by `k` bits. -/
def rotl (k x : Nat) : Nat := mod32 (x <<< k) ||| (x >>> (32 - k))

/-- Bitwise complement within 32 bits. -/
def not32 (x : Nat) : Nat := 4294967295 ^^^ x

/-- Big-endian bytes of a 32-bit word. -/
def wordBytes (w : Nat) : List Nat :=
  [w / 16777216 % 256, w / 65536 % 256, w / 256 % 256, w % 256]

/-- Big-endian 8-byte encoding of a length-in-bits counter. -/
def lenBytes (n : Nat) : List Nat :=
  [n / 72057594037927936 % 256, n / 281474976710656 % 256,
   n / 1099511627776 % 256, n / 4294967296 % 256,
   n / 16777216 % 256, n / 65536 % 256, n / 256 % 256, n % 256]

/-- SHA-1 padding: append `0x80`, zero bytes up to 56 mod 64, then the
64-bit big-endian bit length of the original message. -/
def padMsg (msg : List Nat) : List Nat :=
  let L := msg.length
  let z := (119 - L % 64) % 64
  msg ++ 128 :: List.replicate z 0 ++ lenBytes (8 * L)

/-- Group bytes into big-endian 32-bit words. -/
def bytesToWords : List Nat → List Nat
  | a :: b :: c :: d :: rest => (((a * 256 + b) * 256 + c) * 256 + d) :: bytesToWords rest
  | _ => []

/-- Extend the 16-word schedule; the accumulator keeps the most recent word
first, so `w[i-3]` is at index 2, `w[i-8]` at 7, `w[i-14]` at 13 and
`w[i-16]` at 15. -/
def extendW : Nat → List Nat → List Nat
  | 0, ws => ws
  | n + 1, ws =>
      extendW n (rotl 1 (ws.getD 2 0 ^^^ ws.getD 7 0 ^^^ ws.getD 13 0 ^^^ ws.getD 15 0) :: ws)

/-- Running SHA-1 hash state. -/
structure SHA1State where
  h0 : Nat
  h1 : Nat
  h2 : Nat
  h3 : Nat
  h4 : Nat
deriving DecidableEq

/-- FIPS 180 initial hash value. -/
def sha1Init : SHA1State :=
  ⟨1732584193, 4023233417, 2562383102, 271733878, 3285377520⟩

/-- Round function and constant for round `t`. -/
def sha1FK (t b c d : Nat) : Nat × Nat :=
  if t < 20 then ((b &&& c) ||| (not32 b &&& d), 1518500249)
  else if t < 40 then (b ^^^ c ^^^ d, 1859775393)
  else if t < 60 then ((b &&& c) ||| (b &&& d) ||| (c &&& d), 2400959708)
  else (b ^^^ c ^^^ d, 3395469782)

/-- One SHA-1 round. -/
def sha1Round (st : Nat × Nat × Nat × Nat × Nat) (tw : Nat × Nat) :
    Nat × Nat × Nat × Nat × Nat :=
  let (a, b, c, d, e) := st
  let (f, k) := sha1FK tw.1 b c d
  (mod32 (rotl 5 a + f + e + k + tw.2), a, rotl 30 b, c, d)

/-- Process one 64-byte block. -/
def processBlock (st : SHA1State) (block : List Nat) : SHA1State :=
  let w16 := bytesToWords block
  let w := (extendW 64 w16.reverse).reverse
  let (a, b, c, d, e) :=
    (w.enum).foldl sha1Round (st.h0, st.h1, st.h2, st.h3, st.h4)
  ⟨mod32 (st.h0 + a), mod32 (st.h1 + b), mod32 (st.h2 + c),
   mod32 (st.h3 + d), mod32 (st.h4 + e)⟩

/-- Split a list into successive pieces of `s + 1` elements. -/
def chunkGo {α : Type} (s : Nat) : List α → List (List α)
  | [] => []
  | a :: l => ((a :: l).take (s + 1)) :: chunkGo s ((a :: l).drop (s + 1))
termination_by l => l.length
decreasing_by simp; omega

/-- Serialize the hash state as 20 big-endian bytes. -/
def stateBytes (st : SHA1State) : List Nat :=
  wordBytes st.h0 ++ wordBytes st.h1 ++ wordBytes st.h2 ++ wordBytes st.h3 ++ wordBytes st.h4

/-- SHA-1 digest (20 bytes) of a byte sequence. -/
def sha1 (msg : List Nat) : List Nat :=
  stateBytes ((chunkGo 63 (padMsg msg)).foldl processBlock sha1Init)

/-- UTF-8 encoding of one character. -/
def utf8Char (c : Char) : List Nat :=
  let n := c.toNat
  if n < 128 then [n]
  else if n < 2048 then [192 + n / 64, 128 + n % 64]
  else if n < 65536 then [224 + n / 4096, 128 + n / 64 % 64, 128 + n % 64]
  else [240 + n / 262144, 128 + n / 4096 % 64, 128 + n / 64 % 64, 128 + n % 64]

/-- UTF-8 encoding of a model string. -/
def utf8 (s : Str) : List Nat := (s.map utf8Char).flatten

/-- The 16 bytes of `uuid.NAMESPACE_URL` (6ba7b811-9dad-11d1-80b4-00c04fd430c8). -/
def NAMESPACE_URL : List Nat :=
  [107, 167, 184, 17, 157, 173, 17, 209, 128, 180, 0, 192, 79, 212, 48, 200]

/-- Lowercase hexadecimal digit for `d % 16`. -/
def hexDigitChar (d : Nat) : Char :=
  (str "0123456789abcdef").getD d (Char.ofNat 120)

/-- Two lowercase hex characters of a byte. -/
def byteHex (b : Nat) : Str := [hexDigitChar (b / 16 % 16), hexDigitChar (b % 16)]

/-- Format the first 16 digest bytes as a canonical 8-4-4-4-12 UUID string,
forcing version 5 in byte 6 and the RFC 4122 variant in byte 8, exactly as
`uuid.UUID(bytes=digest, version=5)` does. -/
def uuidFromDigest : List Nat → Str
  | b0 :: b1 :: b2 :: b3 :: b4 :: b5 :: b6 :: b7 :: b8 :: b9 ::
    b10 :: b11 :: b12 :: b13 :: b14 :: b15 :: _ =>
      byteHex b0 ++ byteHex b1 ++ byteHex b2 ++ byteHex b3 ++
      Char.ofNat 45 :: (byteHex b4 ++ byteHex b5 ++
      Char.ofNat 45 :: (byteHex (b6 % 16 + 80) ++ byteHex b7 ++
      Char.ofNat 45 :: (byteHex (b8 % 64 + 128) ++ byteHex b9 ++
      Char.ofNat 45 :: (byteHex b10 ++ byteHex b11 ++ byteHex b12 ++
      byteHex b13 ++ byteHex b14 ++ byteHex b15))))
  | _ => []

/-- Name-based UUID version 5 over namespace bytes and a name. -/
def uuid5 (nsBytes nameBytes : List Nat) : Str :=
  uuidFromDigest (sha1 (nsBytes ++ nameBytes))

/-- The joined name `"{id_namespace}|{source}|{text}"` hashed by `_make_uuid`. -/
def makeName (ns source text : Str) : Str :=
  ns ++ Char.ofNat 124 :: (source ++ Char.ofNat 124 :: text)

/-- Model of `_make_uuid` (src/application/use_cases/upsert_memory.py):
`str(uuid.uuid5(uuid.NAMESPACE_URL, f"{namespace}|{source}|{text}"))`. -/
def make_uuid (ns source text : Str) : Str :=
  uuid5 NAMESPACE_URL (utf8 (makeName ns source text))

/-! ## JSON values and request/response bodies -/

/-- JSON values as sent/received over the wire.  Numbers are `Int` since no
claim depends on float arithmetic; object fields keep insertion order like
Python dicts. -/
inductive JValue where
  | jnull
  | jbool (b : Bool)
  | jnum (n : Int)
  | jstr (s : Str)
  | jarr (xs : List JValue)
  | jobj (fields : List (Str × JValue))

/-- First-match association lookup (Python dict access on unique keys). -/
def lookupA {α : Type} : List (Str × α) → Str → Option α
  | [], _ => none
  | (k, v) :: rest, key => if k = key then some v else lookupA rest key

/-- Field access on a JSON object; any other shape fails (Python raises). -/
def jGet (j : JValue) (key : Str) : Option JValue :=
  match j with
  | .jobj fs => lookupA fs key
  | _ => none

/-- ASCII whitespace recognised by Python `str.strip()`. -/
def isPySpace (c : Char) : Bool :=
  c = Char.ofNat 32 || c = Char.ofNat 9 || c = Char.ofNat 10 ||
  c = Char.ofNat 13 || c = Char.ofNat 11 || c = Char.ofNat 12

/-- Python `str.strip()` (whitespace from both ends). -/
def pyStrip (s : Str) : Str :=
  ((s.dropWhile isPySpace).reverse.dropWhile isPySpace).reverse

/-- Python `str.strip(ch)`: remove the given character from both ends. -/
def stripChar (c : Char) (s : Str) : Str :=
  ((s.dropWhile (fun x => x = c)).reverse.dropWhile (fun x => x = c)).reverse

/-- Decimal value of a non-empty digit string. -/
def decDigits : List Char → Option Nat
  | [] => none
  | l =>
    l.foldl
      (fun acc c =>
        match acc with
        | none => none
        | some n => if c.isDigit then some (10 * n + (c.toNat - 48)) else none)
      (some 0)

/-- Python `int(str)`: strip whitespace, optional sign, decimal digits. -/
def pyParseInt (s : Str) : Option Int :=
  match pyStrip s with
  | [] => none
  | c :: rest =>
    if c = Char.ofNat 43 then (decDigits rest).map Int.ofNat
    else if c = Char.ofNat 45 then (decDigits rest).map (fun n => -(n : Int))
    else (decDigits (c :: rest)).map Int.ofNat

/-- Python `int(x)` on a JSON value: ints pass through, bools coerce,
numeric strings parse, everything else raises (mapped to `none`). -/
def pyInt : JValue → Option Int
  | .jnum n => some n
  | .jbool b => some (if b then 1 else 0)
  | .jstr s => pyParseInt s
  | _ => none

/-- Decimal rendering of an integer, as Python `str(int)` / f-strings. -/
def intToStr (n : Int) : Str := (toString n).toList

/-- Decimal rendering of a natural number. -/
def natToStr (n : Nat) : Str := (toString n).toList

/-! ## HTTP effect trace -/

/-- One HTTP request issued by an adapter, recorded in order. -/
inductive HttpCall where
  | getCollection (name : Str)
  | putCollection (name : Str) (body : JValue)
  | deleteCollection (name : Str)
  | putPoints (name : Str) (body : JValue)
  | postSearch (name : Str) (body : JValue)
  | postEmbed (prompt : Str)

/-- Is this call an upsert (`PUT .../points?wait=true`)? -/
def isPutPoints : HttpCall → Bool
  | .putPoints _ _ => true
  | _ => false

/-- Is this call an embedding request? -/
def isPostEmbed : HttpCall → Bool
  | .postEmbed _ => true
  | _ => false

/-- `requests.Response.raise_for_status` raises exactly for 4xx/5xx. -/
def statusOk (s : Nat) : Bool := s < 400

/-! ## Domain models (src/domain/models.py) -/

/-- Embedding vector with explicit dimension. -/
structure Vector where
  values : List Int
  dim : Nat
deriving DecidableEq

/-- A single memory-bank document to be indexed.  Metadata values are
modelled as strings; `str()` applied to a string is the identity, which is
the only conversion the claims exercise. -/
structure MemoryItem where
  text : Str
  meta : List (Str × Str)
deriving DecidableEq

/-- Payload attached to an upserted point (the three keys built by
`UpsertMemoryUseCase.execute`). -/
structure Payload where
  text_preview : Str
  text_len : Nat
  meta : List (Str × Str)
deriving DecidableEq

/-- A point to upsert into the vector store. -/
structure Point where
  id : Str
  vector : Vector
  payload : Payload
deriving DecidableEq

/-- Request DTO for the ingestion pipeline. -/
structure UpsertMemoryRequest where
  collection : Str
  items : List MemoryItem
  id_namespace : Str
deriving DecidableEq

/-- Response DTO wrapping the provider name and its raw response. -/
structure UpsertResponse where
  provider : Str
  raw : JValue

/-- Python `d.get(key, default)`. -/
def metaGetD (m : List (Str × Str)) (k : Str) (d : Str) : Str :=
  (lookupA m k).getD d

/-- Python slice `l[:m]` for a possibly negative bound `m`. -/
def pySliceTo {α : Type} (l : List α) (m : Int) : List α :=
  if m < 0 then l.take ((l.length + m).toNat) else l.take m.toNat

/-! ## Embedding adapter (src/infrastructure/ollama/client.py)

The network is abstracted as a map from prompt to either an embedding
(the float list, abstracted to `Int`) or a raised error; the adapter posts
one request per text and builds `Vector(values, dim=len(values))`. -/

/-- The per-text loop of `OllamaEmbeddingService.embed_texts`: posts one
request per prompt, raising on the first failure. -/
def embedLoop (w : Str → Except PyError (List Int)) :
    List Str → Except PyError (List Vector) × List HttpCall
  | [] => (.ok [], [])
  | t :: ts =>
    match w t with
    | .error e => (.error e, [.postEmbed t])
    | .ok vals =>
      ((embedLoop w ts).1.map (fun vs => ⟨vals, vals.length⟩ :: vs),
       .postEmbed t :: (embedLoop w ts).2)

/-- Model of `embed_texts`: `if not texts: return []` short-circuits before
any URL/model resolution or HTTP traffic. -/
def embed_texts (w : Str → Except PyError (List Int)) (texts : List Str) :
    Except PyError (List Vector) × List HttpCall :=
  if texts = [] then (.ok [], []) else embedLoop w texts

/-! ## Vector store adapter: upsert (src/infrastructure/qdrant/client.py) -/

/-- JSON for one point's payload (the three keys built by the use case). -/
def payloadJson (pl : Payload) : JValue :=
  .jobj [(str "text_preview", .jstr pl.text_preview),
         (str "text_len", .jnum pl.text_len),
         (str "meta", .jobj (pl.meta.map (fun kv => (kv.1, JValue.jstr kv.2))))]

/-- JSON for one point in the upsert body. -/
def pointJson (p : Point) : JValue :=
  .jobj [(str "id", .jstr p.id),
         (str "vector", .jarr (p.vector.values.map JValue.jnum)),
         (str "payload", payloadJson p.payload)]

/-- Body of `PUT /collections/{name}/points?wait=true`. -/
def pointsBody (ps : List Point) : JValue :=
  .jobj [(str "points", .jarr (ps.map pointJson))]

/-- Response the store world returns to one upsert request. -/
structure UpsertWorld where
  status : Nat
  resp : JValue

/-- Model of `QdrantVectorStore.upsert_points`: one PUT, then either the
parsed JSON response or a raised HTTP error. -/
def upsert_points (w : UpsertWorld) (name : Str) (points : List Point) :
    Except PyError JValue × List HttpCall :=
  (if statusOk w.status then .ok w.resp else .error (.httpError w.status),
   [.putPoints name (pointsBody points)])

/-! ## Ingestion use case (src/application/use_cases/upsert_memory.py) -/

/-- The canonical zero-points success response
`{"status": "ok", "result": {"operation_id": None, "points": 0}}`. -/
def zeroRaw : JValue :=
  .jobj [(str "status", .jstr (str "ok")),
         (str "result", .jobj [(str "operation_id", .jnull), (str "points", .jnum 0)])]

/-- The f-string of the dimension-consistency raise in `execute`. -/
def inconsistentMsg (got expected : Nat) : Str :=
  str "Inconsistent embedding dimension: got " ++ natToStr got ++
  str ", expected " ++ natToStr expected

/-- The body of the point-building loop in `execute`: derive `source` from
`meta.get("source", "")`, compute the deterministic id, and build the
preview/length/meta payload. -/
def buildPoint (idns : Str) (maxChars : Int) (iv : MemoryItem × Vector) : Point :=
  let source := metaGetD iv.1.meta (str "source") []
  { id := make_uuid idns source iv.1.text
    vector := ⟨iv.2.values, iv.2.dim⟩
    payload := ⟨pySliceTo iv.1.text maxChars, iv.1.text.length, iv.1.meta⟩ }

/-- Model of `UpsertMemoryUseCase.execute`, parameterised by the injected
embedding service, the injected store, and the configured
`payload_text_max` value. -/
def execute (emb : List Str → Except PyError (List Vector) × List HttpCall)
    (store : Str → List Point → Except PyError JValue × List HttpCall)
    (maxChars : Int) (req : UpsertMemoryRequest) :
    Except PyError UpsertResponse × List HttpCall :=
  let items := req.items
  let texts := items.map (fun it => it.text)
  match emb texts with
  | (.error e, tr) => (.error e, tr)
  | (.ok vecs, tr) =>
    if vecs = [] then (.ok ⟨str "qdrant", zeroRaw⟩, tr)
    else
      let dim := (vecs.headD ⟨[], 0⟩).dim
      match vecs.find? (fun v => v.dim != dim) with
      | some v => (.error (.valueError (inconsistentMsg v.dim dim)), tr)
      | none =>
        let points := (items.zip vecs).map (buildPoint req.id_namespace maxChars)
        match store req.collection points with
        | (.ok raw, tr2) => (.ok ⟨str "qdrant", raw⟩, tr ++ tr2)
        | (.error e, tr2) => (.error e, tr ++ tr2)

/-! ## Collection lifecycle (QdrantVectorStore.ensure_collection) -/

/-- Response of `GET /collections/{name}`. -/
structure GetCollectionResp where
  status : Nat
  body : JValue

/-- World state consumed by one `ensure_collection` run. -/
structure EnsureWorld where
  get : GetCollectionResp
  deleteStatus : Nat
  createStatus : Nat

/-- Body of the create request `{"vectors": {"size": dim, "distance": distance}}`. -/
def createBody (dim : Int) (distance : Str) : JValue :=
  .jobj [(str "vectors",
          .jobj [(str "size", .jnum dim), (str "distance", .jstr distance)])]

/-- The guarded extraction
`int(data["result"]["config"]["params"]["vectors"]["size"])`; any lookup or
conversion failure is swallowed by the bare `except` and yields `None`. -/
def existingSize (data : JValue) : Option Int := do
  let r ← jGet data (str "result")
  let c ← jGet r (str "config")
  let p ← jGet c (str "params")
  let v ← jGet p (str "vectors")
  let s ← jGet v (str "size")
  pyInt s

/-- The f-string of the dimension-mismatch raise in `ensure_collection`. -/
def collectionMismatchMsg (name : Str) (existing dim : Int) : Str :=
  str "Collection " ++ name ++ str " has size=" ++ intToStr existing ++
  str ", expected=" ++ intToStr dim

/-- Model of `QdrantVectorStore.ensure_collection` with its HTTP trace. -/
def ensure_collection (w : EnsureWorld) (name : Str) (dim : Int)
    (distance : Str) (recreate : Bool) : Except PyError Unit × List HttpCall :=
  if w.get.status = 404 then
    (if statusOk w.createStatus then .ok () else .error (.httpError w.createStatus),
     [.getCollection name, .putCollection name (createBody dim distance)])
  else if statusOk w.get.status then
    match existingSize w.get.body with
    | none => (.ok (), [.getCollection name])
    | some existing =>
      if existing = dim then (.ok (), [.getCollection name])
      else if recreate then
        if statusOk w.deleteStatus then
          (if statusOk w.createStatus then .ok () else .error (.httpError w.createStatus),
           [.getCollection name, .deleteCollection name,
            .putCollection name (createBody dim distance)])
        else
          (.error (.httpError w.deleteStatus),
           [.getCollection name, .deleteCollection name])
      else
        (.error (.valueError (collectionMismatchMsg name existing dim)),
         [.getCollection name])
  else (.error (.httpError w.get.status), [.getCollection name])

/-! ## Thread scope resolver (src/infrastructure/qdrant/client.py) -/

/-- Python `str.lower()` over ASCII. -/
def pyLower (s : Str) : Str := s.map Char.toLower

/-- Environment visible to the resolver: the raw value of
`VM_THREAD_FILTER`, if set. -/
structure ThreadEnv where
  vmThreadFilter : Option Str

/-- The enable switch: `str(os.getenv("VM_THREAD_FILTER", "1")).lower()
in {"1", "true", "yes"}`. -/
def vmFilterEnabled (env : ThreadEnv) : Bool :=
  let v := pyLower ((env.vmThreadFilter).getD (str "1"))
  v == str "1" || v == str "true" || v == str "yes"

/-- Split at the first `=`, when one exists (`s.split("=", 1)`). -/
def splitFirstEq : Str → Option (Str × Str)
  | [] => none
  | c :: rest =>
    if c = Char.ofNat 61 then some ([], rest)
    else (splitFirstEq rest).map (fun p => (c :: p.1, p.2))

/-- One line of `_parse_shell_kv_file`: strip, skip blanks/comments/lines
without `=`, strip the key, strip whitespace and quotes off the value, and
skip empty keys. -/
def parseLine (s0 : Str) : Option (Str × Str) :=
  let s := pyStrip s0
  if s = [] then none
  else if s.headD (Char.ofNat 0) = Char.ofNat 35 then none
  else
    match splitFirstEq s with
    | none => none
    | some (k0, v0) =>
      let k := pyStrip k0
      let v := stripChar (Char.ofNat 39) (stripChar (Char.ofNat 34) (pyStrip v0))
      if k = [] then none else some (k, v)

/-- Python dict assignment `data[k] = v` over an insertion-ordered list. -/
def dictInsert (m : List (Str × Str)) (k : Str) (v : Str) : List (Str × Str) :=
  if (lookupA m k).isSome then m.map (fun kv => if kv.1 = k then (k, v) else kv)
  else m ++ [(k, v)]

/-- Model of `_parse_shell_kv_file` over the file's lines. -/
def parse_shell_kv_file (lines : List Str) : List (Str × Str) :=
  lines.foldl
    (fun m line =>
      match parseLine line with
      | none => m
      | some (k, v) => dictInsert m k v)
    []

/-- Model of `_load_thread_id_from_lock`: `none` when the filter is
disabled, the lock file is absent, `THREAD_ID` is missing, or its stripped
value is empty. -/
def load_thread_id_from_lock (env : ThreadEnv) (lockFile : Option (List Str)) :
    Option Str :=
  if vmFilterEnabled env then
    match lockFile with
    | none => none
    | some lines =>
      match lookupA (parse_shell_kv_file lines) (str "THREAD_ID") with
      | none => none
      | some tid =>
        if pyStrip tid = [] then none else some (pyStrip tid)
  else none

/-! ## Search (QdrantVectorStore.search) -/

/-- The thread filter attached to a scoped search:
`{"must": [{"key": "meta.thread_id", "match": {"value": tid}}]}`. -/
def threadFilter (tid : Str) : JValue :=
  .jobj [(str "must",
    .jarr [.jobj [(str "key", .jstr (str "meta.thread_id")),
                  (str "match", .jobj [(str "value", .jstr tid)])]])]

/-- Insertion-ordered fields of the search request body, exactly as the
source builds them: base fields, optional `score_threshold`, then the
optional thread filter guarded by `if tid:`. -/
def searchBodyFields (values : List Int) (limit : Int) (with_payload : Bool)
    (score_threshold : Option Int) (tid : Option Str) : List (Str × JValue) :=
  ([(str "vector", .jarr (values.map JValue.jnum)),
    (str "limit", .jnum limit),
    (str "with_vector", .jbool false),
    (str "with_payload", .jbool with_payload)]
   ++ (match score_threshold with
       | some s => [(str "score_threshold", JValue.jnum s)]
       | none => []))
  ++ (match tid with
      | some t => if t = [] then [] else [(str "filter", threadFilter t)]
      | none => [])

/-- Response the store world returns to one search request. -/
structure SearchWorld where
  status : Nat
  resp : JValue

/-- Model of `QdrantVectorStore.search` restricted to its effect: resolve
the thread id, build the body, and issue one POST.  Result-list shaping is
not needed by any claim. -/
def search (env : ThreadEnv) (lockFile : Option (List Str)) (w : SearchWorld)
    (name : Str) (vector : List Int) (limit : Int) (with_payload : Bool)
    (score_threshold : Option Int) : Except PyError JValue × List HttpCall :=
  let tid := load_thread_id_from_lock env lockFile
  let body := JValue.jobj (searchBodyFields vector limit with_payload score_threshold tid)
  (if statusOk w.status then .ok w.resp else .error (.httpError w.status),
   [.postSearch name body])

/-! ## Chunker (src/cli/main.py, `_chunk`) -/

/-- Model of `_chunk`: `step = max(1, size)` and
`[text[i : i + step] for i in range(0, len(text), step)]`; the range has
`⌈len / step⌉` indices and `text[i : i + step]` is drop-then-take. -/
def _chunk (text : Str) (size : Int) : List Str :=
  let step := (max 1 size).toNat
  (List.range ((text.length + step - 1) / step)).map
    (fun i => (text.drop (i * step)).take step)

/-! ## Theorems -/

/-- C9: an existing collection whose stored dimension equals the requested
one makes `ensure_collection` a pure no-op for every distance metric and
both recreate flags: only the GET is issued, no delete, no create, and the
stored distance is never consulted. -/
theorem c9_present_matching_noop (w : EnsureWorld) (name : Str) (dim : Int)
    (hs : w.get.status = 200) (he : existingSize w.get.body = some dim) :
    ∀ (distance : Str) (recreate : Bool),
      ensure_collection w name dim distance recreate = (.ok (), [.getCollection name]) := by
  intro distance recreate
  simp [ensure_collection, hs, statusOk, he]

/-- C9 witness: a stored single-vector config of size 768 with a matching
request, an unrelated distance, and recreate set. -/
theorem c9_present_matching_noop_witness :
    ensure_collection
      ⟨⟨200, .jobj [(str "result", .jobj [(str "config", .jobj [(str "params",
          .jobj [(str "vectors", .jobj [(str "size", .jnum 768)])])])])]⟩, 200, 200⟩
      (str "mycol") 768 (str "Euclid") true
      = (.ok (), [.getCollection (str "mycol")]) :=
  c9_present_matching_noop
    ⟨⟨200, .jobj [(str "result", .jobj [(str "config", .jobj [(str "params",
        .jobj [(str "vectors", .jobj [(str "size", .jnum 768)])])])])]⟩, 200, 200⟩
    (str "mycol") 768 rfl rfl (str "Euclid") true

/-- C10: when the GET response exposes no integer vector size at
`result.config.params.vectors.size` (multi-vector or malformed config),
`ensure_collection` succeeds as a no-op for every requested dimension,
distance and recreate flag: no error, no delete, no create. -/
theorem c10_unreadable_size_noop (w : EnsureWorld) (name : Str)
    (hs : w.get.status = 200) (he : existingSize w.get.body = none) :
    ∀ (dim : Int) (distance : Str) (recreate : Bool),
      ensure_collection w name dim distance recreate = (.ok (), [.getCollection name]) := by
  intro dim distance recreate
  simp [ensure_collection, hs, statusOk, he]

/-- C10 witness: a named multi-vector configuration, where the `size` key
lookup inside `vectors` fails, with a recreate request that must still not
delete anything. -/
theorem c10_unreadable_size_noop_witness :
    ensure_collection
      ⟨⟨200, .jobj [(str "result", .jobj [(str "config", .jobj [(str "params",
          .jobj [(str "vectors", .jobj [(str "dense",
            .jobj [(str "size", .jnum 768)])])])])])]⟩, 200, 200⟩
      (str "mycol") 1024 (str "Cosine") true
      = (.ok (), [.getCollection (str "mycol")]) :=
  c10_unreadable_size_noop
    ⟨⟨200, .jobj [(str "result", .jobj [(str "config", .jobj [(str "params",
        .jobj [(str "vectors", .jobj [(str "dense",
          .jobj [(str "size", .jnum 768)])])])])])]⟩, 200, 200⟩
    (str "mycol") rfl rfl 1024 (str "Cosine") true

/-- C3: on a dimension mismatch, `ensure_collection` with `recreate=false`
raises an error whose message reports both dimensions and issues neither a
delete nor a create; with `recreate=true` it issues the GET, then a delete,
then a create carrying the new `{dim, distance}` spec. -/
theorem c3_dimension_mismatch (w : EnsureWorld) (name : Str) (dim existing : Int)
    (distance : Str) (hs : w.get.status = 200)
    (he : existingSize w.get.body = some existing) (hne : existing ≠ dim)
    (hd : statusOk w.deleteStatus = true) (hc : statusOk w.createStatus = true) :
    ensure_collection w name dim distance false =
      (.error (.valueError (collectionMismatchMsg name existing dim)),
       [.getCollection name]) ∧
    List.IsInfix (intToStr existing) (collectionMismatchMsg name existing dim) ∧
    List.IsInfix (intToStr dim) (collectionMismatchMsg name existing dim) ∧
    ensure_collection w name dim distance true =
      (.ok (), [.getCollection name, .deleteCollection name,
                .putCollection name (createBody dim distance)]) := by
  refine ⟨?_, ?_, ?_, ?_⟩
  · simp [ensure_collection, hs, statusOk, he, hne]
  · exact ⟨str "Collection " ++ name ++ str " has size=",
           str ", expected=" ++ intToStr dim,
           by simp [collectionMismatchMsg]⟩
  · exact ⟨str "Collection " ++ name ++ str " has size=" ++ intToStr existing ++
             str ", expected=", [],
           by simp [collectionMismatchMsg]⟩
  · simp [ensure_collection, hs, he, hne, hd, hc]
    rfl

/-- C3 witness: stored size 768, requested 1024. -/
theorem c3_dimension_mismatch_witness :
    ensure_collection
      ⟨⟨200, .jobj [(str "result", .jobj [(str "config", .jobj [(str "params",
          .jobj [(str "vectors", .jobj [(str "size", .jnum 768)])])])])]⟩, 200, 200⟩
      (str "mycol") 1024 (str "Cosine") false =
      (.error (.valueError (collectionMismatchMsg (str "mycol") 768 1024)),
       [.getCollection (str "mycol")]) ∧
    ensure_collection
      ⟨⟨200, .jobj [(str "result", .jobj [(str "config", .jobj [(str "params",
          .jobj [(str "vectors", .jobj [(str "size", .jnum 768)])])])])]⟩, 200, 200⟩
      (str "mycol") 1024 (str "Cosine") true =
      (.ok (), [.getCollection (str "mycol"), .deleteCollection (str "mycol"),
                .putCollection (str "mycol") (createBody 1024 (str "Cosine"))]) :=
  ⟨(c3_dimension_mismatch
      ⟨⟨200, .jobj [(str "result", .jobj [(str "config", .jobj [(str "params",
          .jobj [(str "vectors", .jobj [(str "size", .jnum 768)])])])])]⟩, 200, 200⟩
      (str "mycol") 1024 768 (str "Cosine") rfl rfl (by decide) rfl rfl).1,
   (c3_dimension_mismatch
      ⟨⟨200, .jobj [(str "result", .jobj [(str "config", .jobj [(str "params",
          .jobj [(str "vectors", .jobj [(str "size", .jnum 768)])])])])]⟩, 200, 200⟩
      (str "mycol") 1024 768 (str "Cosine") rfl rfl (by decide) rfl rfl).2.2.2⟩

/-- C6: an empty items list short-circuits: the use case returns the
canonical zero-points success response and no HTTP request reaches either
provider. -/
theorem c6_empty_items (w : Str → Except PyError (List Int)) (sw : UpsertWorld)
    (maxChars : Int) (collection idns : Str) :
    execute (embed_texts w) (upsert_points sw) maxChars ⟨collection, [], idns⟩ =
      (.ok ⟨str "qdrant", zeroRaw⟩, []) := by
  simp [execute, embed_texts]

/-- Is the character a lowercase hexadecimal digit? -/
def isHexChar (c : Char) : Bool := (str "0123456789abcdef").contains c

/-- Every character produced by `hexDigitChar` on a mod-16 value is hex. -/
theorem isHexChar_hexDigitChar (x : Nat) : isHexChar (hexDigitChar (x % 16)) = true := by
  have h : x % 16 < 16 := Nat.mod_lt _ (by norm_num)
  set y := x % 16 with hy
  interval_cases y <;> rfl

/-- Shape of every formatted digest: 36 characters, dashes exactly at
offsets 8, 13, 18 and 23, every character a hex digit or a dash. -/
theorem uuid_wellformed (st : SHA1State) :
    (uuidFromDigest (stateBytes st)).length = 36 ∧
    (uuidFromDigest (stateBytes st)).getD 8 (Char.ofNat 0) = Char.ofNat 45 ∧
    (uuidFromDigest (stateBytes st)).getD 13 (Char.ofNat 0) = Char.ofNat 45 ∧
    (uuidFromDigest (stateBytes st)).getD 18 (Char.ofNat 0) = Char.ofNat 45 ∧
    (uuidFromDigest (stateBytes st)).getD 23 (Char.ofNat 0) = Char.ofNat 45 ∧
    (uuidFromDigest (stateBytes st)).all
      (fun c => isHexChar c || c = Char.ofNat 45) = true := by
  refine ⟨rfl, rfl, rfl, rfl, rfl, ?_⟩
  show (List.all _ _) = true
  simp only [stateBytes, wordBytes, byteHex, List.cons_append, List.nil_append,
    uuidFromDigest, List.all_cons, List.all_nil, Bool.and_true]
  simp [isHexChar_hexDigitChar]

/-- C2: the Content Addresser is a pure deterministic function of the
triple: recomputation yields the identical string, and the output is always
a 36-character UUID-formatted string (8-4-4-4-12 hex groups). -/
theorem c2_deterministic_uuid (ns source text : Str) :
    make_uuid ns source text = make_uuid ns source text ∧
    (make_uuid ns source text).length = 36 ∧
    (make_uuid ns source text).getD 8 (Char.ofNat 0) = Char.ofNat 45 ∧
    (make_uuid ns source text).getD 13 (Char.ofNat 0) = Char.ofNat 45 ∧
    (make_uuid ns source text).getD 18 (Char.ofNat 0) = Char.ofNat 45 ∧
    (make_uuid ns source text).getD 23 (Char.ofNat 0) = Char.ofNat 45 ∧
    (make_uuid ns source text).all
      (fun c => isHexChar c || c = Char.ofNat 45) = true :=
  ⟨rfl,
   uuid_wellformed ((chunkGo 63 (padMsg (NAMESPACE_URL ++
     utf8 (makeName ns source text)))).foldl processBlock sha1Init)⟩

/-- C7 counterexample: the namespaces `"a"` and `"a|b"` are distinct, yet
the triples `("a", "b|c", "d")` and `("a|b", "c", "d")` join to the same
hashed string, so the two namespaces share a Point id: the id-spaces of
distinct namespaces are not disjoint. -/
theorem c7_namespace_not_disjoint :
    str "a" ≠ str "a|b" ∧
    make_uuid (str "a") (str "b|c") (str "d") =
      make_uuid (str "a|b") (str "c") (str "d") :=
  ⟨by decide,
   congrArg (fun n => uuid5 NAMESPACE_URL (utf8 n)) (by decide)⟩

/-- C7 amended: the id is the name-based hash of the joined string
`"{id_namespace}|{source}|{text}"`; for namespaces that do not contain the
separator `|`, distinct namespaces always produce distinct hash-input
strings, so the same `(source, text)` can coexist under different logical
categories with ids that can only coincide through a hash collision. -/
theorem c7_pipe_free_namespaces_separate (ns1 ns2 s1 t1 s2 t2 : Str)
    (h1 : Char.ofNat 124 ∉ ns1) (h2 : Char.ofNat 124 ∉ ns2)
    (hne : ns1 ≠ ns2) :
    makeName ns1 s1 t1 ≠ makeName ns2 s2 t2 := by
  induction ns1 generalizing ns2 with
  | nil =>
    cases ns2 with
    | nil => exact absurd rfl hne
    | cons b r2 =>
      intro heq
      simp only [makeName, List.nil_append, List.cons_append, List.cons.injEq] at heq
      exact h2 (heq.1 ▸ List.mem_cons_self b r2)
  | cons a r1 ih =>
    cases ns2 with
    | nil =>
      intro heq
      simp only [makeName, List.nil_append, List.cons_append, List.cons.injEq] at heq
      exact h1 (heq.1 ▸ List.mem_cons_self a r1)
    | cons b r2 =>
      intro heq
      simp only [makeName, List.cons_append, List.cons.injEq] at heq
      obtain ⟨hab, htail⟩ := heq
      have hr1 : Char.ofNat 124 ∉ r1 := fun hmem => h1 (List.mem_cons_of_mem a hmem)
      have hr2 : Char.ofNat 124 ∉ r2 := fun hmem => h2 (List.mem_cons_of_mem b hmem)
      have hner : r1 ≠ r2 := fun hr => hne (by rw [hab, hr])
      exact ih r2 hr1 hr2 hner htail

/-- C7 amended witness: the source's own category tags `"chat"` and
`"mem"` are pipe-free and distinct, so their joined names differ even with
identical source and text. -/
theorem c7_pipe_free_namespaces_separate_witness :
    Char.ofNat 124 ∉ str "chat" ∧ Char.ofNat 124 ∉ str "mem" ∧
    str "chat" ≠ str "mem" ∧
    makeName (str "chat") (str "doc1") (str "hello") ≠
      makeName (str "mem") (str "doc1") (str "hello") :=
  ⟨by decide, by decide, by decide,
   c7_pipe_free_namespaces_separate (str "chat") (str "mem")
     (str "doc1") (str "hello") (str "doc1") (str "hello")
     (by decide) (by decide) (by decide)⟩

/-- The resolver never reports an empty thread id: a blank `THREAD_ID`
value is mapped to `none`. -/
theorem load_thread_id_ne_nil (env : ThreadEnv) (lockFile : Option (List Str))
    (T : Str) (h : load_thread_id_from_lock env lockFile = some T) : T ≠ [] := by
  unfold load_thread_id_from_lock at h
  split at h
  · split at h
    · exact absurd h (by simp)
    · split at h
      · exact absurd h (by simp)
      · split at h
        · exact absurd h (by simp)
        · rename_i hne
          injection h with h
          rw [h] at hne
          exact hne
  · exact absurd h (by simp)

/-- C4: when the resolver reports an active thread id `T`, the one search
request issued carries a body whose `filter` key is exactly
`{"must": [{"key": "meta.thread_id", "match": {"value": T}}]}`; when the
resolver reports nothing the body has no `filter` key; and a disabled
filter switch always makes the resolver report nothing. -/
theorem c4_thread_scope_filter (env : ThreadEnv) (lockFile : Option (List Str))
    (w : SearchWorld) (name : Str) (values : List Int) (limit : Int)
    (wp : Bool) (st : Option Int) :
    (∀ T, load_thread_id_from_lock env lockFile = some T →
      (search env lockFile w name values limit wp st).2 =
        [.postSearch name (.jobj (searchBodyFields values limit wp st (some T)))] ∧
      lookupA (searchBodyFields values limit wp st (some T)) (str "filter") =
        some (threadFilter T)) ∧
    (load_thread_id_from_lock env lockFile = none →
      (search env lockFile w name values limit wp st).2 =
        [.postSearch name (.jobj (searchBodyFields values limit wp st none))] ∧
      lookupA (searchBodyFields values limit wp st none) (str "filter") = none) ∧
    (vmFilterEnabled env = false → load_thread_id_from_lock env lockFile = none) := by
  refine ⟨?_, ?_, ?_⟩
  · intro T hT
    have hTn := load_thread_id_ne_nil env lockFile T hT
    refine ⟨by simp [search, hT], ?_⟩
    cases st <;> simp [searchBodyFields, lookupA, hTn] <;> rfl
  · intro h
    refine ⟨by simp [search, h], ?_⟩
    cases st <;> simp [searchBodyFields, lookupA] <;> rfl
  · intro h
    simp [load_thread_id_from_lock, h]

/-- C4 witness: with the filter enabled by default and a lock file pinning
`THREAD_ID=T1`, the issued search body carries exactly the `T1` filter. -/
theorem c4_thread_scope_filter_witness :
    (search ⟨none⟩ (some [str "THREAD_ID=T1"]) ⟨200, .jnull⟩ (str "col")
        [1, 2] 5 true none).2 =
      [.postSearch (str "col")
        (.jobj (searchBodyFields [1, 2] 5 true none (some (str "T1"))))] ∧
    lookupA (searchBodyFields [1, 2] 5 true none (some (str "T1")))
        (str "filter") = some (threadFilter (str "T1")) :=
  (c4_thread_scope_filter ⟨none⟩ (some [str "THREAD_ID=T1"]) ⟨200, .jnull⟩
    (str "col") [1, 2] 5 true none).1 (str "T1") rfl

/-- Every request the embedding loop issues is an embedding POST, never an
upsert. -/
theorem embedLoop_no_upsert (w : Str → Except PyError (List Int)) (ts : List Str) :
    ((embedLoop w ts).2).all (fun c => !(isPutPoints c)) = true := by
  induction ts with
  | nil => rfl
  | cons t ts ih =>
    cases h : w t with
    | error e => simp [embedLoop, h, isPutPoints]
    | ok vals =>
      simp only [embedLoop, h, List.all_cons, ih]
      rfl

/-- Every request `embed_texts` issues is an embedding POST, never an
upsert. -/
theorem embed_texts_no_upsert (w : Str → Except PyError (List Int)) (texts : List Str) :
    ((embed_texts w texts).2).all (fun c => !(isPutPoints c)) = true := by
  by_cases h : texts = [] <;> simp [embed_texts, h, embedLoop_no_upsert]

/-- C1 (amended): a batch whose embedded vectors disagree in dimension
makes `execute` raise a `ValueError` (the repository's `ContractError`
subclass exists but is not the class raised here), and the raise happens
before any upsert: the HTTP trace contains no `upsert_points` request, so
the store receives no write. -/
theorem c1_dim_mismatch_aborts_before_upsert (w : Str → Except PyError (List Int))
    (sw : UpsertWorld) (maxChars : Int) (req : UpsertMemoryRequest)
    (vecs : List Vector) (tr : List HttpCall)
    (he : embed_texts w (req.items.map (fun it => it.text)) = (.ok vecs, tr))
    (hmm : ∃ v1 ∈ vecs, ∃ v2 ∈ vecs, v1.dim ≠ v2.dim) :
    raisesValueError (execute (embed_texts w) (upsert_points sw) maxChars req).1 = true ∧
    ((execute (embed_texts w) (upsert_points sw) maxChars req).2).all
      (fun c => !(isPutPoints c)) = true := by
  obtain ⟨v1, hv1, v2, hv2, hd⟩ := hmm
  have hne : vecs ≠ [] := by rintro rfl; cases hv1
  obtain ⟨v, hv⟩ : ∃ v, vecs.find? (fun x => x.dim != (vecs.headD ⟨[], 0⟩).dim) = some v := by
    cases hfind : vecs.find? (fun x => x.dim != (vecs.headD ⟨[], 0⟩).dim) with
    | some v => exact ⟨v, rfl⟩
    | none =>
      have h1 := List.find?_eq_none.mp hfind v1 hv1
      have h2 := List.find?_eq_none.mp hfind v2 hv2
      simp at h1 h2
      exact absurd (h1.trans h2.symm) hd
  have hex : execute (embed_texts w) (upsert_points sw) maxChars req =
      (.error (.valueError (inconsistentMsg v.dim (vecs.headD ⟨[], 0⟩).dim)), tr) := by
    have hv2 : vecs.find? (fun x => x.dim != (vecs.head?.getD ⟨[], 0⟩).dim) = some v := by
      simpa using hv
    simp [execute, he, hne, hv2]
  rw [hex]
  refine ⟨rfl, ?_⟩
  have hall := embed_texts_no_upsert w (req.items.map (fun it => it.text))
  rw [he] at hall
  exact hall

/-- C1 witness: two items embedded with dimensions 2 and 3 make the
amended conclusion hold on a concrete run. -/
theorem c1_dim_mismatch_aborts_before_upsert_witness :
    raisesValueError
      (execute
        (embed_texts (fun t => if t = str "a" then .ok [0, 0] else .ok [0, 0, 0]))
        (upsert_points ⟨200, .jnull⟩) 4096
        ⟨str "col", [⟨str "a", []⟩, ⟨str "b", []⟩], str "mem"⟩).1 = true ∧
    ((execute
        (embed_texts (fun t => if t = str "a" then .ok [0, 0] else .ok [0, 0, 0]))
        (upsert_points ⟨200, .jnull⟩) 4096
        ⟨str "col", [⟨str "a", []⟩, ⟨str "b", []⟩], str "mem"⟩).2).all
      (fun c => !(isPutPoints c)) = true :=
  c1_dim_mismatch_aborts_before_upsert
    (fun t => if t = str "a" then .ok [0, 0] else .ok [0, 0, 0])
    ⟨200, .jnull⟩ 4096
    ⟨str "col", [⟨str "a", []⟩, ⟨str "b", []⟩], str "mem"⟩
    [⟨[0, 0], 2⟩, ⟨[0, 0, 0], 3⟩]
    [.postEmbed (str "a"), .postEmbed (str "b")]
    rfl
    ⟨⟨[0, 0], 2⟩, by simp, ⟨[0, 0, 0], 3⟩, by simp, by decide⟩

/-- C1 counterexample: on a concrete mismatched batch the raised exception
is a plain `ValueError`, not a `ContractError` instance, refuting the
claim's stated exception class (the abort-before-upsert part is what the
amended theorem keeps). -/
theorem c1_counterexample_not_contracterror :
    (embed_texts (fun t => if t = str "a" then .ok [0, 0] else .ok [0, 0, 0])
        [str "a", str "b"]).1 = .ok [⟨[0, 0], 2⟩, ⟨[0, 0, 0], 3⟩] ∧
    raisesContractError
      (execute
        (embed_texts (fun t => if t = str "a" then .ok [0, 0] else .ok [0, 0, 0]))
        (upsert_points ⟨200, .jnull⟩) 4096
        ⟨str "col", [⟨str "a", []⟩, ⟨str "b", []⟩], str "mem"⟩).1 = false ∧
    raisesValueError
      (execute
        (embed_texts (fun t => if t = str "a" then .ok [0, 0] else .ok [0, 0, 0]))
        (upsert_points ⟨200, .jnull⟩) 4096
        ⟨str "col", [⟨str "a", []⟩, ⟨str "b", []⟩], str "mem"⟩).1 = true :=
  ⟨rfl, rfl, rfl⟩

/-- C8: on a successful non-empty batch, exactly one upsert request is
issued after the embedding calls, carrying one point per `(item, vector)`
pair; each built point takes `source` from `meta["source"]` (empty when
absent), derives its id from `(id_namespace, source, text)` via the Content
Addresser, previews the text up to the configured bound, records the full
text length, and carries the item's whole meta mapping. -/
theorem c8_point_construction (w : Str → Except PyError (List Int))
    (sw : UpsertWorld) (maxChars : Int) (req : UpsertMemoryRequest)
    (vecs : List Vector) (tr : List HttpCall)
    (he : embed_texts w (req.items.map (fun it => it.text)) = (.ok vecs, tr))
    (hne : vecs ≠ [])
    (hdim : ∀ v ∈ vecs, v.dim = (vecs.headD ⟨[], 0⟩).dim)
    (hm : 0 ≤ maxChars) :
    (execute (embed_texts w) (upsert_points sw) maxChars req).2 =
      tr ++ [.putPoints req.collection
        (pointsBody ((req.items.zip vecs).map (buildPoint req.id_namespace maxChars)))] ∧
    ((req.items.zip vecs).map (buildPoint req.id_namespace maxChars)).map Point.id =
      (req.items.zip vecs).map (fun iv =>
        make_uuid req.id_namespace (metaGetD iv.1.meta (str "source") []) iv.1.text) ∧
    ((req.items.zip vecs).map (buildPoint req.id_namespace maxChars)).map
        (fun p => p.payload.text_preview) =
      (req.items.zip vecs).map (fun iv => iv.1.text.take maxChars.toNat) ∧
    ((req.items.zip vecs).map (buildPoint req.id_namespace maxChars)).map
        (fun p => p.payload.text_len) =
      (req.items.zip vecs).map (fun iv => iv.1.text.length) ∧
    ((req.items.zip vecs).map (buildPoint req.id_namespace maxChars)).map
        (fun p => p.payload.meta) =
      (req.items.zip vecs).map (fun iv => iv.1.meta) := by
  have hfind : vecs.find? (fun x => x.dim != (vecs.head?.getD ⟨[], 0⟩).dim) = none := by
    apply List.find?_eq_none.mpr
    intro x hx
    simp [hdim x hx]
  have hm2 : ¬ maxChars < 0 := by omega
  refine ⟨?_, ?_, ?_, ?_, ?_⟩
  · simp [execute, he, hne, hfind, upsert_points]
    cases hst : statusOk sw.status <;> simp [hst]
  · rw [List.map_map]
    rfl
  · rw [List.map_map]
    refine List.map_congr_left ?_
    intro iv _
    simp [buildPoint, pySliceTo, hm2]
  · rw [List.map_map]
    rfl
  · rw [List.map_map]
    rfl

/-- C8 witness: the spec's end-to-end scenario — one item with text
`"hello world"` and source `"doc1"` under namespace `"mem"` yields one
point whose id is the hash of that triple and whose recorded text length
is 11. -/
theorem c8_point_construction_witness :
    ((([⟨str "hello world", [(str "source", str "doc1")]⟩] : List MemoryItem).zip
        [(⟨[1, 2, 3], 3⟩ : Vector)]).map (buildPoint (str "mem") 4096)).map Point.id =
      [make_uuid (str "mem") (str "doc1") (str "hello world")] ∧
    ((([⟨str "hello world", [(str "source", str "doc1")]⟩] : List MemoryItem).zip
        [(⟨[1, 2, 3], 3⟩ : Vector)]).map (buildPoint (str "mem") 4096)).map
        (fun p => p.payload.text_len) = [11] := by
  have h := c8_point_construction (fun _ => .ok [1, 2, 3]) ⟨200, .jnull⟩ 4096
    ⟨str "col", [⟨str "hello world", [(str "source", str "doc1")]⟩], str "mem"⟩
    [⟨[1, 2, 3], 3⟩] [.postEmbed (str "hello world")] rfl (by decide) (by decide) (by decide)
  exact ⟨h.2.1.trans (by rfl), h.2.2.2.1.trans (by rfl)⟩

/-- Concatenating the successive pieces reconstructs the input. -/
theorem chunkGo_flatten {α : Type} (s : Nat) (l : List α) : (chunkGo s l).flatten = l := by
  refine chunkGo.induct s (fun l => (chunkGo s l).flatten = l) ?_ ?_ l
  · simp [chunkGo]
  · intro a t ih
    rw [chunkGo]
    simp only [List.flatten_cons, ih, List.take_append_drop]

/-- Every piece except possibly the last has the full width `s + 1`. -/
theorem chunkGo_dropLast_length {α : Type} (s : Nat) (l : List α) :
    ∀ c ∈ (chunkGo s l).dropLast, c.length = s + 1 := by
  refine chunkGo.induct s (fun l => ∀ c ∈ (chunkGo s l).dropLast, c.length = s + 1) ?_ ?_ l
  · simp [chunkGo]
  · intro a t ih c hc
    rw [chunkGo] at hc
    rcases hrest : chunkGo s ((a :: t).drop (s + 1)) with _ | ⟨d, ds⟩
    · rw [hrest] at hc
      simp at hc
    · rw [hrest] at hc
      rw [List.dropLast_cons_of_ne_nil (by simp)] at hc
      rcases List.mem_cons.mp hc with h1 | h2
      · subst h1
        have hd : (a :: t).drop (s + 1) ≠ [] := by
          intro hnil
          rw [hnil] at hrest
          simp [chunkGo] at hrest
        have hlen : s + 1 < (a :: t).length := by
          by_contra hle
          push_neg at hle
          exact hd (List.drop_eq_nil_of_le hle)
        simp at hlen
        simp [List.length_take]
        omega
      · exact ih c (hrest ▸ h2)

/-- The comprehension `[l[i * (s+1) : (i+1) * (s+1)] for i in
range(⌈len/(s+1)⌉)]` computes the successive pieces of width `s + 1`. -/
theorem range_chunk_eq {α : Type} (s : Nat) (l : List α) :
    (List.range ((l.length + s) / (s + 1))).map
        (fun i => (l.drop (i * (s + 1))).take (s + 1)) = chunkGo s l := by
  refine chunkGo.induct s (fun l =>
    (List.range ((l.length + s) / (s + 1))).map
      (fun i => (l.drop (i * (s + 1))).take (s + 1)) = chunkGo s l) ?_ ?_ l
  · dsimp only
    rw [List.length_nil, Nat.zero_add, Nat.div_eq_of_lt (by omega)]
    simp [chunkGo]
  · intro a t ih
    rw [chunkGo]
    have hcount : ((a :: t).length + s) / (s + 1) = t.length / (s + 1) + 1 := by
      rw [List.length_cons, show t.length + 1 + s = t.length + (s + 1) from by omega]
      exact Nat.add_div_right _ (by omega)
    rw [hcount, List.range_succ_eq_map, List.map_cons]
    simp only [Nat.zero_mul, List.drop_zero]
    congr 1
    rw [List.map_map]
    have hlen2 : (((a :: t).drop (s + 1)).length + s) / (s + 1) = t.length / (s + 1) := by
      rw [List.length_drop, List.length_cons]
      rcases Nat.le_total t.length s with hle | hge
      · rw [show t.length + 1 - (s + 1) = 0 from by omega]
        rw [Nat.div_eq_of_lt (by omega), Nat.div_eq_of_lt (by omega)]
      · rw [show t.length + 1 - (s + 1) + s = t.length from by omega]
    rw [hlen2] at ih
    rw [← ih]
    refine List.map_congr_left ?_
    intro i _
    simp only [Function.comp_apply, List.drop_drop]
    congr 2
    simp only [Nat.succ_eq_add_one]
    ring

/-- C5: chunking concatenates back to the input exactly; every chunk but
possibly the last has exactly the coerced width `max 1 size` (hence exactly
`size` characters whenever `size ≥ 1`); a non-positive `size` behaves as
`size = 1`; and empty input yields the empty sequence. -/
theorem c5_chunk_spec (text : Str) (size : Int) :
    (_chunk text size).flatten = text ∧
    ((_chunk text size).dropLast).all
      (fun c => c.length == (max 1 size).toNat) = true ∧
    _chunk text size = _chunk text (max 1 size) ∧
    (size ≤ 0 → _chunk text size = _chunk text 1) ∧
    _chunk ([] : Str) size = [] := by
  have hstep : 1 ≤ (max 1 size).toNat := by omega
  have hbr : _chunk text size = chunkGo ((max 1 size).toNat - 1) text := by
    have hb := range_chunk_eq ((max 1 size).toNat - 1) text
    rw [show (max 1 size).toNat - 1 + 1 = (max 1 size).toNat from by omega] at hb
    rw [show text.length + ((max 1 size).toNat - 1) =
          text.length + (max 1 size).toNat - 1 from by omega] at hb
    simpa [_chunk] using hb
  have hmax : _chunk text size = _chunk text (max 1 size) := by
    have h1 : max 1 (max 1 size) = max 1 size := max_eq_right (le_max_left 1 size)
    simp [_chunk, h1]
  refine ⟨?_, ?_, hmax, ?_, ?_⟩
  · rw [hbr]
    exact chunkGo_flatten _ _
  · rw [hbr, List.all_eq_true]
    intro c hc
    have hlen := chunkGo_dropLast_length ((max 1 size).toNat - 1) text c hc
    simp only [beq_iff_eq]
    omega
  · intro hnp
    rw [hmax, max_eq_left (by omega)]
  · simp only [_chunk, List.length_nil]
    rw [show 0 + (max 1 size).toNat - 1 = (max 1 size).toNat - 1 from by omega]
    rw [Nat.div_eq_of_lt (by omega)]
    simp

/-- C5 witness: a negative width is coerced, so `_chunk "abc" (-3)` equals
the one-character-per-chunk splitting. -/
theorem c5_chunk_spec_witness :
    (-3 : Int) ≤ 0 ∧ _chunk (str "abc") (-3) = _chunk (str "abc") 1 :=
  ⟨by decide, (c5_chunk_spec (str "abc") (-3)).2.2.2.1 (by decide)⟩
